import Mathlib

/-!
# Shallow embedding of the Asteroids game core (src/index.tsx)

JavaScript numbers are modelled as exact rationals (`ℚ`).  The
transcendental operations the source uses (`Math.cos`, `Math.sin`,
`Math.PI`) return irrational values, so they are supplied as oracle
parameters in an `Env` record; no claim depends on their values, and
every theorem quantifies over the environment.  `Math.random()` draws
are supplied explicitly as oracle records (one field per draw site),
mirroring the arithmetic the source performs on each draw.

Comparisons of the form `r > Math.sqrt d` (with `d` a sum of squares,
hence `d ≥ 0`) are embedded as `0 < r ∧ d < r ^ 2`, which is equivalent
over the reals: for `r ≤ 0` the original comparison is false since
`sqrt d ≥ 0`, and for `r > 0` squaring both sides is monotone.
-/

/-- Oracle parameters standing for `Math.cos`, `Math.sin` and
`Math.PI`. -/
structure Env where
  cos : ℚ → ℚ
  sin : ℚ → ℚ
  pi : ℚ

/-- Base entity shape shared by ship, laser and asteroid (`GameEntity`). -/
structure GameEntity where
  x : ℚ
  y : ℚ
  radius : ℚ
  xVelocity : ℚ
  yVelocity : ℚ
  deriving DecidableEq, Repr

structure Laser where
  x : ℚ
  y : ℚ
  radius : ℚ
  xVelocity : ℚ
  yVelocity : ℚ
  distTravelled : ℚ
  explodeTime : ℚ
  deriving DecidableEq, Repr

structure Ship where
  x : ℚ
  y : ℚ
  radius : ℚ
  xVelocity : ℚ
  yVelocity : ℚ
  angle : ℚ
  rotation : ℚ
  thrusting : Bool
  blinkTime : ℕ
  blinkNum : ℕ
  canShoot : Bool
  lasers : List Laser
  deriving DecidableEq, Repr

structure Asteroid where
  x : ℚ
  y : ℚ
  radius : ℚ
  xVelocity : ℚ
  yVelocity : ℚ
  angle : ℚ
  vert : ℤ
  offsets : List ℚ
  stage : ℕ
  deriving DecidableEq, Repr

structure Particle where
  x : ℚ
  y : ℚ
  coordinates : List (ℚ × ℚ)
  angle : ℚ
  speed : ℚ
  brightness : ℚ
  alpha : ℚ
  decay : ℚ
  deriving DecidableEq, Repr

structure Explosion where
  x : ℚ
  y : ℚ
  particles : List Particle
  deriving DecidableEq, Repr

structure GameState where
  score : ℕ
  level : ℕ
  lives : ℕ
  ship : Ship
  asteroids : List Asteroid
  explosions : List Explosion
  deriving DecidableEq, Repr

/-- The closed action set of the reducer. -/
inductive GameActions where
  | rotateRight
  | rotateLeft
  | rotateStop
  | thrustOn
  | thrustStop
  | shootLaser
  | enableLaser
  | gameLoop
  deriving DecidableEq, Repr

/- Constants, verbatim from the source. -/
def FPS : ℚ := 60
structure CanvasDim where
  width : ℚ
  height : ℚ
def CANVAS : CanvasDim := ⟨700, 500⟩
def SHIP_SIZE : ℚ := 20
def TURN_SPEED : ℚ := 180
def SHIP_THRUST : ℚ := 5
def FRICTION : ℚ := 7 / 10
def ASTEROIDS_NUM : ℕ := 3
def ASTEROIDS_SIZE : List ℚ := [100, 50, 25]
def ASTEROIDS_SPEED : ℚ := 50
def ASTEROIDS_VERT : ℚ := 10
def ASTEROID_JAG : ℚ := 3 / 10
def SHIP_INVINCIBLE_DURATION : ℚ := 3
def SHIP_BLINK_DURATION : ℚ := 3 / 10
def PARTICLE_TRAIL : ℕ := 2
def PARTICLE_COUNT : ℕ := 10
def PARTICLE_GRAVITY : ℚ := 0
def PARTICLE_MAX_SPEED : ℚ := 2
def PARTICLE_FRICTION : ℚ := 19 / 20
def PARTICLE_DECAY_MIN : ℚ := 1 / 100
def PARTICLE_DECAY_MAX : ℚ := 1 / 20
def LASER_SPEED : ℚ := 500
def GAME_LIVES : ℕ := 3

/-- Points per asteroid stage.  JavaScript array indexing out of range
yields `undefined`; it is modelled with `List.getD` and a default, and
every theorem touching such a lookup restricts the stage to the values
1..3 that the factories actually produce. -/
def POINTS : List ℕ := [20, 50, 100]

/-- The comparison `distBetweenPoints(x1,y1,x2,y2) < bound`, with the
square root eliminated by squaring (see the header comment). -/
def distBetweenPointsLt (x1 y1 x2 y2 bound : ℚ) : Bool :=
  decide (0 < bound ∧ (x2 - x1) ^ 2 + (y2 - y1) ^ 2 < bound ^ 2)

/-- Source helper `random(min, max)` = `Math.random() * (max - min) +
min`, with the `Math.random()` draw `u` made explicit. -/
def random (u min max : ℚ) : ℚ :=
  u * (max - min) + min

/-- Circle overlap test: `radiusSum > sqrt(xDiff² + yDiff²)`, square
root eliminated by squaring (see the header comment). -/
def circleCollision (obj1 obj2 : GameEntity) : Bool :=
  decide (0 < obj1.radius + obj2.radius ∧
    (obj1.x - obj2.x) ^ 2 + (obj1.y - obj2.y) ^ 2 <
      (obj1.radius + obj2.radius) ^ 2)

def Ship.entity (s : Ship) : GameEntity :=
  ⟨s.x, s.y, s.radius, s.xVelocity, s.yVelocity⟩

def Laser.entity (l : Laser) : GameEntity :=
  ⟨l.x, l.y, l.radius, l.xVelocity, l.yVelocity⟩

def Asteroid.entity (a : Asteroid) : GameEntity :=
  ⟨a.x, a.y, a.radius, a.xVelocity, a.yVelocity⟩

def createShip (env : Env) : Ship where
  x := CANVAS.width / 2
  y := CANVAS.height / 2
  radius := SHIP_SIZE / 2
  angle := (90 / 180) * env.pi
  rotation := 0
  thrusting := false
  xVelocity := 0
  yVelocity := 0
  blinkTime := 0
  blinkNum := ⌈SHIP_INVINCIBLE_DURATION / SHIP_BLINK_DURATION⌉.toNat
  canShoot := true
  lasers := []

def createLaser (env : Env) (state : GameState) : Laser :=
  let ship := state.ship
  { x := ship.x + (4 / 3) * ship.radius * env.cos ship.angle
    y := ship.y - (4 / 3) * ship.radius * env.sin ship.angle
    xVelocity := LASER_SPEED * env.cos ship.angle / FPS
    yVelocity := -LASER_SPEED * env.sin ship.angle / FPS
    radius := 3
    distTravelled := 0
    explodeTime := 0 }

/-- One `Math.random()` draw per random call site of `createAsteroid`. -/
structure RandAst where
  angleU : ℚ
  vertU : ℚ
  xMagU : ℚ
  xSignU : ℚ
  yMagU : ℚ
  ySignU : ℚ
  offU : ℕ → ℚ

def createAsteroid (env : Env) (x y : ℚ) (level : ℕ) (r : RandAst)
    (stage : ℕ := 1) : Asteroid :=
  let levelMultiplier : ℚ := 1 + (1 / 10) * level
  let angle := r.angleU * env.pi * 2
  let vert : ℤ := ⌊r.vertU * (ASTEROIDS_VERT + 1) + ASTEROIDS_VERT / 2⌋
  { x := x
    y := y
    xVelocity := ((r.xMagU * ASTEROIDS_SPEED * levelMultiplier) / FPS) *
      (if r.xSignU < 1 / 2 then 1 else -1)
    yVelocity := ((r.yMagU * ASTEROIDS_SPEED * levelMultiplier) / FPS) *
      (if r.ySignU < 1 / 2 then 1 else -1)
    radius := (⌈ASTEROIDS_SIZE.getD (stage - 1) 0 / 2⌉ : ℤ)
    angle := angle
    vert := vert
    stage := stage
    offsets := (List.range vert.toNat).map
      (fun i => r.offU i * ASTEROID_JAG * 2 + 1 - ASTEROID_JAG) }

/-- Random draws for one slot of the belt: the successive candidate
position draws of the `do ... while` rejection loop, then the draws for
the asteroid itself.  The loop is modelled as the first candidate whose
position passes the distance check; it fails (models divergence) when
no listed candidate passes. -/
structure SlotRand where
  cands : List (ℚ × ℚ)
  ast : RandAst

/-- One candidate position: `Math.floor(Math.random() * CANVAS.width)`
and likewise for the height. -/
def slotPos (c : ℚ × ℚ) : ℚ × ℚ :=
  ((⌊c.1 * CANVAS.width⌋ : ℤ), (⌊c.2 * CANVAS.height⌋ : ℤ))

/-- The `do ... while` loop of `createAsteroidBelt`: first drawn
position at least `ASTEROIDS_SIZE[0] * 2 + ship.radius` away from the
ship. -/
def pickPos (ship : Ship) (cands : List (ℚ × ℚ)) : Option (ℚ × ℚ) :=
  (cands.map slotPos).find? (fun p =>
    ! distBetweenPointsLt ship.x ship.y p.1 p.2
        (ASTEROIDS_SIZE.getD 0 0 * 2 + ship.radius))

/-- Sequence a list of options (all-or-nothing). -/
def seqO {α : Type} : List (Option α) → Option (List α)
  | [] => some []
  | o :: rest => o.bind fun a => (seqO rest).map (a :: ·)

def createAsteroidBelt (env : Env) (level : ℕ) (ship : Ship)
    (slots : ℕ → SlotRand) : Option (List Asteroid) :=
  seqO ((List.range (ASTEROIDS_NUM + level)).map (fun i =>
    (pickPos ship (slots i).cands).map (fun p =>
      createAsteroid env p.1 p.2 level (slots i).ast 1)))

/-- One `Math.random()` draw per random call site of `createParticle`. -/
structure RandParticle where
  angleU : ℚ
  speedU : ℚ
  brightU : ℚ
  decayU : ℚ

def createParticle (env : Env) (rp : RandParticle) (x y : ℚ) : Particle where
  x := x
  y := y
  coordinates := List.replicate PARTICLE_TRAIL (x, y)
  angle := random rp.angleU 0 (env.pi * 2)
  speed := random rp.speedU 1 PARTICLE_MAX_SPEED
  brightness := random rp.brightU 50 80
  alpha := 1
  decay := random rp.decayU PARTICLE_DECAY_MIN PARTICLE_DECAY_MAX

def createExplosion (env : Env) (rps : ℕ → RandParticle) (x y : ℚ) :
    Explosion where
  x := x
  y := y
  particles := (List.range PARTICLE_COUNT).map
    (fun i => createParticle env (rps i) x y)

def isGameOver (state : GameState) : Bool := state.lives == 0
def isSpawning (state : GameState) : Bool := state.ship.blinkNum > 0

def rotateLeft (env : Env) (state : GameState) : GameState :=
  { state with ship :=
      { state.ship with rotation := ((TURN_SPEED / 180) * env.pi) / FPS } }

def rotateRight (env : Env) (state : GameState) : GameState :=
  { state with ship :=
      { state.ship with rotation := ((-TURN_SPEED / 180) * env.pi) / FPS } }

def rotateStop (state : GameState) : GameState :=
  { state with ship := { state.ship with rotation := 0 } }

def thrustOn (state : GameState) : GameState :=
  { state with ship := { state.ship with thrusting := true } }

def thrustStop (state : GameState) : GameState :=
  { state with ship := { state.ship with thrusting := false } }

def shootLaser (env : Env) (state : GameState) : GameState :=
  { state with ship :=
      if state.ship.canShoot then
        { state.ship with
            lasers := state.ship.lasers ++ [createLaser env state]
            canShoot := false }
      else state.ship }

def enableLaser (state : GameState) : GameState :=
  { state with ship := { state.ship with canShoot := true } }

def moveShip (env : Env) (state : GameState) : GameState :=
  let ship := state.ship
  let angle := ship.angle + ship.rotation
  let x := ship.x + ship.xVelocity
  let y := ship.y + ship.yVelocity
  let leftCorner := 0 - ship.radius
  let rightCorner := CANVAS.width + ship.radius
  let topCorner := 0 - ship.radius
  let bottomCorner := CANVAS.height + ship.radius
  { state with ship :=
      { ship with
          x := if x < leftCorner then rightCorner
               else if x > rightCorner then leftCorner else x
          y := if y < topCorner then bottomCorner
               else if y > bottomCorner then topCorner else y
          angle := angle
          xVelocity :=
            if ship.thrusting then
              ship.xVelocity + (SHIP_THRUST * env.cos angle) / FPS
            else ship.xVelocity - (FRICTION * ship.xVelocity) / FPS
          yVelocity :=
            if ship.thrusting then
              ship.yVelocity - (SHIP_THRUST * env.sin angle) / FPS
            else ship.yVelocity - (FRICTION * ship.yVelocity) / FPS } }

def moveParticle (env : Env) (state : Particle) : Option Particle :=
  let coordinates := (state.x, state.y) :: state.coordinates.dropLast
  let speed := state.speed * PARTICLE_FRICTION
  let alpha := state.alpha - state.decay
  if alpha ≤ state.decay then none
  else some
    { state with
        coordinates := coordinates
        speed := speed
        alpha := alpha
        x := state.x + env.cos state.angle * speed
        y := state.y + env.sin state.angle * speed + PARTICLE_GRAVITY }

def blinkShip (state : GameState) : GameState :=
  let ship := state.ship
  { state with ship :=
      { ship with
          blinkTime :=
            if ship.blinkTime = 0 then ⌈SHIP_BLINK_DURATION * FPS⌉.toNat
            else ship.blinkTime - 1
          blinkNum :=
            if ship.blinkTime = 0 ∧ ship.blinkNum > 0 then ship.blinkNum - 1
            else ship.blinkNum } }

def animateExplosions (env : Env) (state : GameState) : GameState :=
  { state with explosions := state.explosions.map (fun explosion =>
      { explosion with particles :=
          (explosion.particles.foldl
            (fun prev particle =>
              match moveParticle env particle with
              | some newPart => prev ++ [newPart]
              | none => prev)
            ([] : List Particle)) }) }

/-- Fragmentation.  The source removes list entries with `==`, which
is JavaScript reference equality; it is modelled here as structural
equality, which coincides with it whenever the hit asteroid occurs only
once in the list (the program only ever passes an element of the list,
and the factory randomization makes duplicates measure-zero). -/
def removeAsteroid (env : Env) (asteroids : List Asteroid)
    (asteroid : Asteroid) (level : ℕ) (r1 r2 : RandAst) : List Asteroid :=
  let newBelt := asteroids.foldl
    (fun prev ast => if asteroid = ast then prev else prev ++ [ast]) []
  if asteroid.stage = 1 then
    newBelt ++ [createAsteroid env (asteroid.x - 5) (asteroid.y - 5) level r1 2,
                createAsteroid env (asteroid.x + 5) (asteroid.y + 5) level r2 2]
  else if asteroid.stage = 2 then
    newBelt ++ [createAsteroid env (asteroid.x - 5) (asteroid.y - 5) level r1 3,
                createAsteroid env (asteroid.x + 5) (asteroid.y + 5) level r2 3]
  else newBelt

def removeLaser (asteroid : Asteroid) (ship : Ship) : List Laser :=
  ship.lasers.foldl
    (fun prev laser =>
      if circleCollision laser.entity asteroid.entity then prev
      else prev ++ [laser])
    []

def checkShipCollision (env : Env) (rps : ℕ → RandParticle)
    (r1 r2 : RandAst) (state : GameState) : GameState :=
  let ship := state.ship
  let hitAsteroid := state.asteroids.find? (fun asteroid =>
    circleCollision ship.entity asteroid.entity)
  match hitAsteroid with
  | none => state
  | some hit =>
    let explosion := createExplosion env rps
      (ship.x + (4 / 3) * ship.radius * env.cos ship.angle)
      (ship.y - (4 / 3) * ship.radius * env.sin ship.angle)
    if state.lives > 1 then
      { state with
          ship := createShip env
          lives := state.lives - 1
          asteroids := removeAsteroid env state.asteroids hit state.level r1 r2
          explosions := state.explosions ++ [explosion] }
    else
      { state with
          lives := 0
          explosions := state.explosions ++ [explosion] }

def checkLaserCollision (env : Env) (rps : ℕ → RandParticle)
    (r1 r2 : RandAst) (state : GameState) : GameState :=
  let hitLaser := state.ship.lasers.find? (fun laser =>
    (state.asteroids.find? (fun asteroid =>
      circleCollision laser.entity asteroid.entity)).isSome)
  let hitAsteroid := hitLaser.bind (fun hl =>
    state.asteroids.find? (fun asteroid =>
      circleCollision hl.entity asteroid.entity))
  match hitLaser, hitAsteroid with
  | some hl, some hit =>
    { state with
        asteroids := removeAsteroid env state.asteroids hit state.level r1 r2
        ship := { state.ship with lasers := removeLaser hit state.ship }
        explosions := state.explosions ++ [createExplosion env rps hl.x hl.y]
        score := state.score + POINTS.getD (hit.stage - 1) 0 }
  | _, _ => state

def moveLasers (state : GameState) : GameState :=
  let moveIfOnBoard (prev : List Laser) (laser : Laser) : List Laser :=
    if laser.x < 0 ∨ laser.x > CANVAS.width ∨
        laser.y < 0 ∨ laser.y > CANVAS.height then prev
    else prev ++ [{ laser with
        x := laser.x + laser.xVelocity
        y := laser.y + laser.yVelocity }]
  { state with ship :=
      { state.ship with lasers := state.ship.lasers.foldl moveIfOnBoard [] } }

def moveAsteroid (asteroid : Asteroid) : Asteroid :=
  let x := asteroid.x + asteroid.xVelocity
  let y := asteroid.y + asteroid.yVelocity
  let leftCorner := 0 - asteroid.radius
  let rightCorner := CANVAS.width + asteroid.radius
  let topCorner := 0 - asteroid.radius
  let bottomCorner := CANVAS.height + asteroid.radius
  { asteroid with
      x := if x < leftCorner then rightCorner
           else if x > rightCorner then leftCorner else x
      y := if y < topCorner then bottomCorner
           else if y > bottomCorner then topCorner else y }

def moveAsteroids (state : GameState) : GameState :=
  { state with asteroids := state.asteroids.map moveAsteroid }

def checkLevelCompleted (env : Env) (slots : ℕ → SlotRand)
    (state : GameState) : Option GameState :=
  let level := state.level + 1
  if state.asteroids.length ≠ 0 then some state
  else (createAsteroidBelt env level state.ship slots).map (fun belt =>
    { state with asteroids := belt, level := level })

/-- Random draws consumed by one `gameLoop` tick, one component per
randomized call site of the pipeline. -/
structure TickRand where
  shipExpl : ℕ → RandParticle
  shipFragA : RandAst
  shipFragB : RandAst
  laserExpl : ℕ → RandParticle
  laserFragA : RandAst
  laserFragB : RandAst
  slots : ℕ → SlotRand

def gameLoop (env : Env) (r : TickRand) (state : GameState) :
    Option GameState :=
  if isGameOver state then some (animateExplosions env state)
  else if isSpawning state then
    some (animateExplosions env (moveAsteroids (blinkShip state)))
  else
    (checkLevelCompleted env r.slots
      (checkLaserCollision env r.laserExpl r.laserFragA r.laserFragB
        (checkShipCollision env r.shipExpl r.shipFragA r.shipFragB
          (moveAsteroids (moveLasers (moveShip env state)))))).map
      (animateExplosions env)

def reducer (env : Env) (r : TickRand) (state : GameState)
    (action : GameActions) : Option GameState :=
  match action with
  | GameActions.rotateLeft => some (rotateLeft env state)
  | GameActions.rotateRight => some (rotateRight env state)
  | GameActions.rotateStop => some (rotateStop state)
  | GameActions.thrustOn => some (thrustOn state)
  | GameActions.thrustStop => some (thrustStop state)
  | GameActions.shootLaser => some (shootLaser env state)
  | GameActions.enableLaser => some (enableLaser state)
  | GameActions.gameLoop => gameLoop env r state

/- Concrete fixtures used to instantiate the theorems on closed inputs. -/

def envC : Env := ⟨fun _ => 1, fun _ => 0, 0⟩

def rAstC : RandAst := ⟨0, 0, 0, 0, 0, 0, fun _ => 0⟩

def rPartC : RandParticle := ⟨0, 0, 0, 0⟩

def slotC : SlotRand := ⟨[(0, 0)], rAstC⟩

def tickC : TickRand :=
  ⟨fun _ => rPartC, rAstC, rAstC, fun _ => rPartC, rAstC, rAstC, fun _ => slotC⟩

def shipC : Ship :=
  ⟨350, 250, 10, 0, 0, 0, 0, false, 0, 0, true, []⟩

def stateC : GameState := ⟨0, 1, 3, shipC, [], []⟩

def astC : Asteroid := ⟨700, 250, 50, 51, 0, 0, 10, [], 1⟩

/- Helper lemmas. -/

theorem animateExplosions_explosions (env : Env) (s : GameState) :
    (animateExplosions env s).explosions = s.explosions.map (fun explosion =>
      { explosion with particles :=
          (explosion.particles.foldl
            (fun prev particle =>
              match moveParticle env particle with
              | some newPart => prev ++ [newPart]
              | none => prev)
            ([] : List Particle)) }) := rfl

/-- Claim C3: in a terminal state (`lives == 0`) the `gameLoop` action
changes only the `explosions` field — score, level, lives, the entire
ship record (hence position, angle, velocity, lasers and blink
counters) and the asteroid list are returned unchanged, and the
explosions are exactly the advanced particles. -/
theorem spec_C3 (env : Env) (r : TickRand) (s : GameState)
    (h : s.lives = 0) :
    ∃ s', gameLoop env r s = some s' ∧
      s'.score = s.score ∧ s'.level = s.level ∧ s'.lives = s.lives ∧
      s'.ship = s.ship ∧ s'.asteroids = s.asteroids ∧
      s'.explosions = (animateExplosions env s).explosions := by
  refine ⟨animateExplosions env s, ?_, rfl, rfl, rfl, rfl, rfl, rfl⟩
  simp [gameLoop, isGameOver, h]

/-- Witness for C3 at a concrete terminal state. -/
theorem spec_C3_witness :
    ∃ s', gameLoop envC tickC { stateC with lives := 0 } = some s' ∧
      s'.score = stateC.score ∧ s'.level = stateC.level ∧ s'.lives = 0 ∧
      s'.ship = stateC.ship ∧ s'.asteroids = stateC.asteroids ∧
      s'.explosions =
        (animateExplosions envC { stateC with lives := 0 }).explosions :=
  spec_C3 envC tickC { stateC with lives := 0 } rfl

/-- Claim C4: both `moveShip` and `moveAsteroids` wrap each axis
independently: with `r` the entity's radius and `size` the board
dimension on that axis, a post-velocity coordinate below `-r` reappears
at `size + r`, one above `size + r` reappears at `-r`, and otherwise
the post-velocity coordinate is kept; in particular an asteroid whose
step lands on `x = width + r + 1` is repositioned to `x = -r` (the
one-unit excess is dropped). -/
theorem spec_C4 :
    (∀ (env : Env) (s : GameState),
      (moveShip env s).ship.x =
        (if s.ship.x + s.ship.xVelocity < -s.ship.radius then
          CANVAS.width + s.ship.radius
        else if s.ship.x + s.ship.xVelocity > CANVAS.width + s.ship.radius then
          -s.ship.radius
        else s.ship.x + s.ship.xVelocity) ∧
      (moveShip env s).ship.y =
        (if s.ship.y + s.ship.yVelocity < -s.ship.radius then
          CANVAS.height + s.ship.radius
        else if s.ship.y + s.ship.yVelocity > CANVAS.height + s.ship.radius then
          -s.ship.radius
        else s.ship.y + s.ship.yVelocity)) ∧
    (∀ s : GameState, (moveAsteroids s).asteroids =
      s.asteroids.map moveAsteroid) ∧
    (∀ a : Asteroid,
      (moveAsteroid a).x =
        (if a.x + a.xVelocity < -a.radius then CANVAS.width + a.radius
        else if a.x + a.xVelocity > CANVAS.width + a.radius then -a.radius
        else a.x + a.xVelocity) ∧
      (moveAsteroid a).y =
        (if a.y + a.yVelocity < -a.radius then CANVAS.height + a.radius
        else if a.y + a.yVelocity > CANVAS.height + a.radius then -a.radius
        else a.y + a.yVelocity)) ∧
    (∀ a : Asteroid, 0 ≤ a.radius →
      a.x + a.xVelocity = CANVAS.width + a.radius + 1 →
      (moveAsteroid a).x = -a.radius) := by
  refine ⟨fun env s => ⟨?_, ?_⟩, fun s => rfl, fun a => ⟨?_, ?_⟩, ?_⟩
  · simp [moveShip, zero_sub]
  · simp [moveShip, zero_sub]
  · simp [moveAsteroid, zero_sub]
  · simp [moveAsteroid, zero_sub]
  · intro a hr hx
    have hw : CANVAS.width = 700 := rfl
    have h1 : ¬ a.x + a.xVelocity < -a.radius := by
      rw [hx, hw]
      push_neg
      nlinarith
    have h2 : a.x + a.xVelocity > CANVAS.width + a.radius := by
      rw [hx]; nlinarith
    simp [moveAsteroid, zero_sub, h1, h2]

/-- Witness for C4's conditional part: a stage-1 asteroid (radius 50)
stepping from `x = 700` by velocity `51` lands on `width + r + 1 = 751`
and is repositioned to `-50`. -/
theorem spec_C4_witness :
    (0 : ℚ) ≤ astC.radius ∧
    astC.x + astC.xVelocity = CANVAS.width + astC.radius + 1 ∧
    (moveAsteroid astC).x = -astC.radius :=
  ⟨by norm_num [astC], by norm_num [astC, CANVAS],
    spec_C4.2.2.2 astC (by norm_num [astC]) (by norm_num [astC, CANVAS])⟩

/-- Claim C9: while the ship is spawning (`blinkNum > 0`) and the game
is not over, `gameLoop` skips every collision sub-transition: lives and
score are unchanged, the laser list is unchanged, the asteroids are
exactly the moved originals (none fragmented or removed), and the
explosion particles are still advanced. -/
theorem spec_C9 (env : Env) (r : TickRand) (s : GameState)
    (h1 : 0 < s.lives) (h2 : 0 < s.ship.blinkNum) :
    ∃ s', gameLoop env r s = some s' ∧
      s'.lives = s.lives ∧ s'.score = s.score ∧
      s'.ship.lasers = s.ship.lasers ∧
      s'.asteroids = s.asteroids.map moveAsteroid ∧
      s'.explosions = (animateExplosions env s).explosions := by
  refine ⟨animateExplosions env (moveAsteroids (blinkShip s)), ?_,
    rfl, rfl, rfl, rfl, rfl⟩
  have hGO : isGameOver s = false := by
    simp [isGameOver]
    omega
  have hSp : isSpawning s = true := by
    simp [isSpawning]
    omega
  simp [gameLoop, hGO, hSp]

/-- Witness for C9 at a concrete spawning state with one asteroid. -/
theorem spec_C9_witness :
    ∃ s',
      gameLoop envC tickC
        { stateC with ship := { shipC with blinkNum := 5 },
                      asteroids := [astC] } = some s' ∧
      s'.lives = 3 ∧ s'.score = 0 ∧
      s'.ship.lasers = shipC.lasers ∧
      s'.asteroids = [moveAsteroid astC] ∧
      s'.explosions =
        (animateExplosions envC
          { stateC with ship := { shipC with blinkNum := 5 },
                        asteroids := [astC] }).explosions :=
  spec_C9 envC tickC
    { stateC with ship := { shipC with blinkNum := 5 }, asteroids := [astC] }
    (by decide) (by decide)

/-- The accumulator fold of `removeAsteroid` is a filter. -/
theorem removeAsteroid_core_eq (a : Asteroid) :
    ∀ (l acc : List Asteroid),
      l.foldl (fun prev ast => if a = ast then prev else prev ++ [ast]) acc
        = acc ++ l.filter (fun ast => decide ¬(a = ast)) := by
  intro l
  induction l with
  | nil => intro acc; simp
  | cons hd tl ih =>
    intro acc
    by_cases h : a = hd
    · subst h
      rw [List.foldl_cons, if_pos rfl, ih acc]
      congr 1
      simp [List.filter_cons]
    · rw [List.foldl_cons, if_neg h, ih (acc ++ [hd])]
      simp [List.filter_cons, h]

/-- On a list holding the element exactly once, filtering it out agrees
with `erase`. -/
theorem filter_ne_eq_erase (a : Asteroid) :
    ∀ l : List Asteroid, l.count a = 1 →
      l.filter (fun ast => decide ¬(a = ast)) = l.erase a := by
  intro l
  induction l with
  | nil => intro h; simp at h
  | cons hd tl ih =>
    intro h
    by_cases hhd : hd = a
    · subst hhd
      have htl : tl.count hd = 0 := by
        have := List.count_cons_self hd tl
        omega
      have hnm : hd ∉ tl := List.count_eq_zero.1 htl
      have hf : tl.filter (fun ast => decide ¬(hd = ast)) = tl := by
        apply List.filter_eq_self.2
        intro b hb
        have hne : ¬hd = b := fun hEq => hnm (hEq ▸ hb)
        simp [hne]
      simp [List.filter_cons, hf]
      intro b hb hEq
      exact hnm (hEq ▸ hb)
    · have hcnt : tl.count a = 1 := by
        have := List.count_cons_of_ne (fun hEq => hhd hEq.symm) tl
        omega
      have hne : ¬(a = hd) := fun hEq => hhd hEq.symm
      rw [List.filter_cons_of_pos (by simp [hne]),
        List.erase_cons_tail (by simp [hhd]), ih hcnt]

/-- Claim C1: `removeAsteroid` removes the hit asteroid (when it occurs
once in the belt) and appends exactly two stage-2 children for a
stage-1 parent, two stage-3 children for a stage-2 parent, and none for
a stage-3 parent, the children sitting at offsets `(-5,-5)` and
`(+5,+5)` from the parent; the resulting length is the pre-hit length
minus one plus the number of children. -/
theorem spec_C1 (env : Env) (l : List Asteroid) (a : Asteroid) (lvl : ℕ)
    (r1 r2 : RandAst) (h : l.count a = 1) :
    a ∉ removeAsteroid env l a lvl r1 r2 ∧
    (∀ b ∈ l, b ≠ a → b ∈ removeAsteroid env l a lvl r1 r2) ∧
    (a.stage = 1 → ∃ c1 c2,
      removeAsteroid env l a lvl r1 r2 = l.erase a ++ [c1, c2] ∧
      c1.stage = 2 ∧ c2.stage = 2 ∧
      c1.x = a.x - 5 ∧ c1.y = a.y - 5 ∧ c2.x = a.x + 5 ∧ c2.y = a.y + 5) ∧
    (a.stage = 2 → ∃ c1 c2,
      removeAsteroid env l a lvl r1 r2 = l.erase a ++ [c1, c2] ∧
      c1.stage = 3 ∧ c2.stage = 3 ∧
      c1.x = a.x - 5 ∧ c1.y = a.y - 5 ∧ c2.x = a.x + 5 ∧ c2.y = a.y + 5) ∧
    (a.stage = 3 → removeAsteroid env l a lvl r1 r2 = l.erase a) ∧
    (removeAsteroid env l a lvl r1 r2).length =
      l.length - 1 + (if a.stage = 1 ∨ a.stage = 2 then 2 else 0) := by
  have hmem : a ∈ l := List.count_pos_iff.1 (by omega)
  have hcore : l.foldl
      (fun prev ast => if a = ast then prev else prev ++ [ast]) []
        = l.erase a := by
    rw [removeAsteroid_core_eq, filter_ne_eq_erase a l h]
    simp
  have hout : a ∉ l.erase a := by
    have := List.count_erase_self a l
    rw [h] at this
    exact List.count_eq_zero.1 (by omega)
  have hkeep : ∀ b ∈ l, b ≠ a → b ∈ l.erase a := by
    intro b hb hba
    exact (List.mem_erase_of_ne hba).2 hb
  have hlen : (l.erase a).length = l.length - 1 :=
    List.length_erase_of_mem hmem
  unfold removeAsteroid
  rw [hcore]
  by_cases h1 : a.stage = 1
  · have hne1 : a ≠ createAsteroid env (a.x - 5) (a.y - 5) lvl r1 2 := by
      intro hEq
      have : a.x = a.x - 5 := congrArg Asteroid.x hEq
      linarith
    have hne2 : a ≠ createAsteroid env (a.x + 5) (a.y + 5) lvl r2 2 := by
      intro hEq
      have : a.x = a.x + 5 := congrArg Asteroid.x hEq
      linarith
    refine ⟨?_, ?_, ?_, ?_, ?_, ?_⟩
    · simp [h1, hout, hne1, hne2]
    · intro b hb hba
      simp [h1, hkeep b hb hba]
    · intro _
      refine ⟨createAsteroid env (a.x - 5) (a.y - 5) lvl r1 2,
        createAsteroid env (a.x + 5) (a.y + 5) lvl r2 2,
        ?_, rfl, rfl, rfl, rfl, rfl, rfl⟩
      simp [h1]
    · intro h2; omega
    · intro h3; omega
    · simp [h1, hlen]
  by_cases h2 : a.stage = 2
  · have hne1 : a ≠ createAsteroid env (a.x - 5) (a.y - 5) lvl r1 3 := by
      intro hEq
      have : a.x = a.x - 5 := congrArg Asteroid.x hEq
      linarith
    have hne2 : a ≠ createAsteroid env (a.x + 5) (a.y + 5) lvl r2 3 := by
      intro hEq
      have : a.x = a.x + 5 := congrArg Asteroid.x hEq
      linarith
    refine ⟨?_, ?_, ?_, ?_, ?_, ?_⟩
    · simp [h1, h2, hout, hne1, hne2]
    · intro b hb hba
      simp [h1, h2, hkeep b hb hba]
    · intro hc; omega
    · intro _
      refine ⟨createAsteroid env (a.x - 5) (a.y - 5) lvl r1 3,
        createAsteroid env (a.x + 5) (a.y + 5) lvl r2 3,
        ?_, rfl, rfl, rfl, rfl, rfl, rfl⟩
      simp [h1, h2]
    · intro h3; omega
    · simp [h1, h2, hlen]
  · refine ⟨?_, ?_, ?_, ?_, ?_, ?_⟩
    · simp [h1, h2, hout]
    · intro b hb hba
      simp [h1, h2, hkeep b hb hba]
    · intro hc; omega
    · intro hc; omega
    · intro _; simp [h1, h2]
    · simp [h1, h2]
      omega

/-- Witness for C1: a one-element belt holding a stage-1 asteroid. -/
theorem spec_C1_witness :
    ([astC].count astC = 1) ∧
    astC ∉ removeAsteroid envC [astC] astC 1 rAstC rAstC ∧
    (removeAsteroid envC [astC] astC 1 rAstC rAstC).length = 2 := by
  have h := spec_C1 envC [astC] astC 1 rAstC rAstC (by simp)
  refine ⟨by simp, h.1, ?_⟩
  have := h.2.2.2.2.2
  simpa using this

/-- Claim C2: with `lives == 1` and an asteroid overlapping the ship,
`checkShipCollision` sets `lives` to 0, keeps the very same ship (no
respawn), leaves the asteroid list untouched (no fragmentation), and
appends exactly one explosion. -/
theorem spec_C2 (env : Env) (rps : ℕ → RandParticle) (r1 r2 : RandAst)
    (s : GameState) (h1 : s.lives = 1)
    (h2 : ∃ a ∈ s.asteroids, circleCollision s.ship.entity a.entity = true) :
    (checkShipCollision env rps r1 r2 s).lives = 0 ∧
    (checkShipCollision env rps r1 r2 s).ship = s.ship ∧
    (checkShipCollision env rps r1 r2 s).asteroids = s.asteroids ∧
    (checkShipCollision env rps r1 r2 s).score = s.score ∧
    (checkShipCollision env rps r1 r2 s).level = s.level ∧
    ∃ e, (checkShipCollision env rps r1 r2 s).explosions =
      s.explosions ++ [e] := by
  have hs : (s.asteroids.find? (fun asteroid =>
      circleCollision s.ship.entity asteroid.entity)).isSome := by
    rw [List.find?_isSome]
    obtain ⟨a, ha, hc⟩ := h2
    exact ⟨a, ha, hc⟩
  obtain ⟨hit, hfind⟩ := Option.isSome_iff_exists.1 hs
  have hlt : ¬ s.lives > 1 := by omega
  simp only [checkShipCollision, hfind, hlt, if_false]
  exact ⟨trivial, trivial, trivial, trivial, trivial, _, rfl⟩

/-- A stage-3 asteroid sitting right on the ship. -/
def astOnShipC : Asteroid := { astC with x := 350, y := 250, stage := 3 }

/-- A state with one life left and a colliding asteroid. -/
def stateC2 : GameState :=
  { stateC with lives := 1, asteroids := [astOnShipC] }

/-- Witness for C2: a single stage-3 asteroid sitting on the ship with
one life left. -/
theorem spec_C2_witness :
    (checkShipCollision envC (fun _ => rPartC) rAstC rAstC stateC2).lives
      = 0 ∧
    (checkShipCollision envC (fun _ => rPartC) rAstC rAstC stateC2).ship
      = stateC2.ship ∧
    (checkShipCollision envC (fun _ => rPartC) rAstC rAstC stateC2).asteroids
      = stateC2.asteroids ∧
    (checkShipCollision envC (fun _ => rPartC) rAstC rAstC stateC2).score
      = stateC2.score ∧
    (checkShipCollision envC (fun _ => rPartC) rAstC rAstC stateC2).level
      = stateC2.level ∧
    ∃ e,
      (checkShipCollision envC (fun _ => rPartC) rAstC rAstC
        stateC2).explosions = stateC2.explosions ++ [e] :=
  spec_C2 envC (fun _ => rPartC) rAstC rAstC stateC2 rfl
    ⟨astOnShipC, by simp [stateC2],
      by norm_num [circleCollision, Ship.entity, Asteroid.entity, stateC2,
        stateC, shipC, astOnShipC, astC]⟩

/-- The two-pass hit resolution of `checkLaserCollision`: the first
laser overlapping some asteroid exists, and `hit` is the first asteroid
overlapping that laser. -/
def laserHitResolved (s : GameState) (hit : Asteroid) : Prop :=
  ∃ hl,
    s.ship.lasers.find? (fun laser =>
      (s.asteroids.find? (fun asteroid =>
        circleCollision laser.entity asteroid.entity)).isSome) = some hl ∧
    s.asteroids.find? (fun asteroid =>
      circleCollision hl.entity asteroid.entity) = some hit

/-- Claim C5: whenever `checkLaserCollision` resolves a hit the score
grows by exactly the hit asteroid's stage points (20/50/100 for stages
1/2/3) and by nothing else (no hit leaves the score unchanged); hence
destroying one asteroid of each stage in sequence adds exactly 170. -/
theorem spec_C5 :
    (∀ (env : Env) (rps : ℕ → RandParticle) (r1 r2 : RandAst)
        (s : GameState) (hit : Asteroid), laserHitResolved s hit →
      hit.stage = 1 ∨ hit.stage = 2 ∨ hit.stage = 3 →
      (checkLaserCollision env rps r1 r2 s).score
        = s.score + POINTS.getD (hit.stage - 1) 0) ∧
    (∀ (env : Env) (rps : ℕ → RandParticle) (r1 r2 : RandAst)
        (s : GameState), (∀ hit, ¬ laserHitResolved s hit) →
      (checkLaserCollision env rps r1 r2 s).score = s.score) ∧
    (POINTS.getD 0 0 = 20 ∧ POINTS.getD 1 0 = 50 ∧ POINTS.getD 2 0 = 100) ∧
    (∀ (env : Env) (rpsA rpsB rpsC : ℕ → RandParticle)
        (rA1 rA2 rB1 rB2 rC1 rC2 : RandAst) (s : GameState)
        (a1 a2 a3 : Asteroid),
      laserHitResolved s a1 → a1.stage = 1 →
      laserHitResolved (checkLaserCollision env rpsA rA1 rA2 s) a2 →
      a2.stage = 2 →
      laserHitResolved (checkLaserCollision env rpsB rB1 rB2
        (checkLaserCollision env rpsA rA1 rA2 s)) a3 →
      a3.stage = 3 →
      (checkLaserCollision env rpsC rC1 rC2
        (checkLaserCollision env rpsB rB1 rB2
          (checkLaserCollision env rpsA rA1 rA2 s))).score
        = s.score + 170) := by
  have hA : ∀ (env : Env) (rps : ℕ → RandParticle) (r1 r2 : RandAst)
      (s : GameState) (hit : Asteroid), laserHitResolved s hit →
      (checkLaserCollision env rps r1 r2 s).score
        = s.score + POINTS.getD (hit.stage - 1) 0 := by
    intro env rps r1 r2 s hit ⟨hl, h1, h2⟩
    simp [checkLaserCollision, h1, h2]
  refine ⟨fun env rps r1 r2 s hit hres _ => hA env rps r1 r2 s hit hres,
    ?_, ⟨rfl, rfl, rfl⟩, ?_⟩
  · intro env rps r1 r2 s h
    cases hfl : s.ship.lasers.find? (fun laser =>
        (s.asteroids.find? (fun asteroid =>
          circleCollision laser.entity asteroid.entity)).isSome) with
    | none => simp [checkLaserCollision, hfl]
    | some hl =>
      cases hfa : s.asteroids.find? (fun asteroid =>
          circleCollision hl.entity asteroid.entity) with
      | none => simp [checkLaserCollision, hfl, hfa]
      | some hit => exact absurd ⟨hl, hfl, hfa⟩ (h hit)
  · intro env rpsA rpsB rpsC rA1 rA2 rB1 rB2 rC1 rC2 s a1 a2 a3
      h1 hs1 h2 hs2 h3 hs3
    have e1 := hA env rpsA rA1 rA2 s a1 h1
    have e2 := hA env rpsB rB1 rB2 _ a2 h2
    have e3 := hA env rpsC rC1 rC2 _ a3 h3
    rw [hs1] at e1
    rw [hs2] at e2
    rw [hs3] at e3
    rw [e3, e2, e1]
    norm_num [POINTS]

def laserC : Laser := ⟨100, 100, 3, 0, 0, 0, 0⟩

def astHitC : Asteroid := { astC with x := 100, y := 100, xVelocity := 0 }

def stateC5 : GameState :=
  { stateC with ship := { shipC with lasers := [laserC] },
                asteroids := [astHitC] }

/-- Witness for C5: one laser sitting inside one stage-1 asteroid adds
exactly `POINTS[0] = 20`. -/
theorem spec_C5_witness :
    laserHitResolved stateC5 astHitC ∧ astHitC.stage = 1 ∧
    (checkLaserCollision envC (fun _ => rPartC) rAstC rAstC stateC5).score
      = stateC5.score + POINTS.getD (astHitC.stage - 1) 0 := by
  have hres : laserHitResolved stateC5 astHitC := by
    refine ⟨laserC, ?_, ?_⟩
    · norm_num [stateC5, stateC, shipC, List.find?, circleCollision,
        Laser.entity, Asteroid.entity, laserC, astHitC, astC]
    · norm_num [stateC5, stateC, List.find?, circleCollision,
        Laser.entity, Asteroid.entity, laserC, astHitC, astC]
  exact ⟨hres, rfl,
    spec_C5.1 envC (fun _ => rPartC) rAstC rAstC stateC5 astHitC hres
      (Or.inl rfl)⟩

theorem createAsteroid_x (env : Env) (x y : ℚ) (lvl : ℕ) (r : RandAst)
    (st : ℕ) : (createAsteroid env x y lvl r st).x = x := rfl

theorem createAsteroid_y (env : Env) (x y : ℚ) (lvl : ℕ) (r : RandAst)
    (st : ℕ) : (createAsteroid env x y lvl r st).y = y := rfl

theorem seqO_length {α : Type} :
    ∀ (xs : List (Option α)) (l : List α), seqO xs = some l →
      l.length = xs.length := by
  intro xs
  induction xs with
  | nil =>
    intro l h
    simp [seqO] at h
    simp [← h]
  | cons o rest ih =>
    intro l h
    cases o with
    | none => simp [seqO] at h
    | some a =>
      simp only [seqO, Option.some_bind] at h
      obtain ⟨l', hl', rfl⟩ := Option.map_eq_some'.1 h
      simp [ih l' hl']

theorem seqO_mem {α : Type} :
    ∀ (xs : List (Option α)) (l : List α), seqO xs = some l →
      ∀ a ∈ l, some a ∈ xs := by
  intro xs
  induction xs with
  | nil =>
    intro l h
    simp [seqO] at h
    subst h
    intro a ha
    simp at ha
  | cons o rest ih =>
    intro l h
    cases o with
    | none => simp [seqO] at h
    | some b =>
      simp only [seqO, Option.some_bind] at h
      obtain ⟨l', hl', rfl⟩ := Option.map_eq_some'.1 h
      intro a ha
      rcases List.mem_cons.1 ha with rfl | ha'
      · exact List.mem_cons_self _ _
      · exact List.mem_cons_of_mem _ (ih l' hl' a ha')

/-- Claim C6: `checkLevelCompleted` leaves a state with a non-empty
belt unchanged; on an empty belt (when the rejection sampling
terminates, i.e. the modelled belt creation succeeds) it increments the
level and installs a belt of `ASTEROIDS_NUM + newLevel` asteroids, each
of which failed the "too close to the ship" test, hence sits at least
the minimum distance away. -/
theorem spec_C6 (env : Env) (slots : ℕ → SlotRand) :
    (∀ s : GameState, s.asteroids ≠ [] →
      checkLevelCompleted env slots s = some s) ∧
    (∀ s s' : GameState, s.asteroids = [] →
      checkLevelCompleted env slots s = some s' →
      s'.level = s.level + 1 ∧
      s'.asteroids.length = ASTEROIDS_NUM + (s.level + 1) ∧
      s'.asteroids ≠ [] ∧
      ∀ a ∈ s'.asteroids,
        distBetweenPointsLt s.ship.x s.ship.y a.x a.y
          (ASTEROIDS_SIZE.getD 0 0 * 2 + s.ship.radius) = false) := by
  constructor
  · intro s h
    have hlen : s.asteroids.length ≠ 0 := by
      simpa [List.length_eq_zero] using h
    simp [checkLevelCompleted, hlen]
  · intro s s' h hEq
    have hlen : s.asteroids.length = 0 := by simp [h]
    simp only [checkLevelCompleted, hlen, ne_eq, not_true_eq_false,
      if_false] at hEq
    obtain ⟨belt, hbelt, rfl⟩ := Option.map_eq_some'.1 hEq
    refine ⟨rfl, ?_, ?_, ?_⟩
    · have := seqO_length _ _ hbelt
      simpa using this
    · have hl := seqO_length _ _ hbelt
      simp only [List.length_map, List.length_range] at hl
      intro hnil
      simp only [GameState.asteroids] at hnil
      rw [hnil] at hl
      simp [ASTEROIDS_NUM] at hl
      omega
    · intro a ha
      have hmem := seqO_mem _ _ hbelt a ha
      simp only [List.mem_map, List.mem_range] at hmem
      obtain ⟨i, _, hi⟩ := hmem
      obtain ⟨p, hp, ha'⟩ := Option.map_eq_some'.1 hi
      have hpred := List.find?_some hp
      have hfalse : distBetweenPointsLt s.ship.x s.ship.y p.1 p.2
          (ASTEROIDS_SIZE.getD 0 0 * 2 + s.ship.radius) = false := by
        simpa using hpred
      rw [← ha', createAsteroid_x, createAsteroid_y]
      exact hfalse

def stateC6 : GameState := { stateC with asteroids := [] }

def slotsC6 : ℕ → SlotRand := fun _ => slotC

theorem seqO_replicate {α : Type} (c : α) :
    ∀ n, seqO (List.replicate n (some c)) = some (List.replicate n c) := by
  intro n
  induction n with
  | zero => rfl
  | succ k ih => simp [List.replicate_succ, seqO, ih]

/-- Witness for C6: an empty belt at level 1 with a constant random
slot stream whose first candidate already lies far from the ship. -/
theorem spec_C6_witness :
    stateC6.asteroids = [] ∧
    ∃ s', checkLevelCompleted envC slotsC6 stateC6 = some s' ∧
      s'.level = stateC6.level + 1 ∧
      s'.asteroids.length = ASTEROIDS_NUM + (stateC6.level + 1) ∧
      s'.asteroids ≠ [] := by
  have hfind : pickPos shipC [((0 : ℚ), (0 : ℚ))] = some (0, 0) := by
    norm_num [pickPos, slotPos, distBetweenPointsLt, shipC, CANVAS,
      ASTEROIDS_SIZE, List.find?]
  have hmap : ((List.range 5).map fun i =>
      (pickPos shipC (slotsC6 i).cands).map fun p =>
        createAsteroid envC p.1 p.2 2 (slotsC6 i).ast 1)
      = List.replicate 5 (some (createAsteroid envC 0 0 2 rAstC 1)) := by
    simp [slotsC6, slotC, hfind, List.map_const']
    exact ⟨0, 0, hfind, rfl⟩
  have hbelt : createAsteroidBelt envC 2 shipC slotsC6
      = some (List.replicate 5 (createAsteroid envC 0 0 2 rAstC 1)) := by
    unfold createAsteroidBelt
    rw [show ASTEROIDS_NUM + 2 = 5 from rfl, hmap, seqO_replicate]
  have heq : checkLevelCompleted envC slotsC6 stateC6
      = some { stateC6 with
          asteroids := List.replicate 5 (createAsteroid envC 0 0 2 rAstC 1),
          level := 2 } := by
    simp [checkLevelCompleted, stateC6, stateC, hbelt]
  have h := (spec_C6 envC slotsC6).2 stateC6 _ rfl heq
  exact ⟨rfl, _, heq, h.1, h.2.1, h.2.2.1⟩

theorem moveParticle_alive (env : Env) (p : Particle)
    (h : ¬ p.alpha - p.decay ≤ p.decay) :
    ∃ q, moveParticle env p = some q ∧ q.alpha = p.alpha - p.decay ∧
      q.decay = p.decay := by
  simp only [moveParticle, h, if_false]
  exact ⟨_, rfl, rfl, rfl⟩

theorem moveParticle_dead (env : Env) (p : Particle)
    (h : p.alpha - p.decay ≤ p.decay) : moveParticle env p = none := by
  simp [moveParticle, h]

theorem animate_single (env : Env) (x y : ℚ) (p : Particle) (s : GameState)
    (h : s.explosions = [⟨x, y, [p]⟩]) :
    (animateExplosions env s).explosions
      = [⟨x, y, match moveParticle env p with
                | some q => [q]
                | none => []⟩] := by
  simp only [animateExplosions, h, List.map_cons, List.map_nil,
    List.foldl_cons, List.foldl_nil]
  cases moveParticle env p <;> simp

theorem animate_empty (env : Env) (x y : ℚ) (s : GameState)
    (h : s.explosions = [⟨x, y, []⟩]) :
    (animateExplosions env s).explosions = [⟨x, y, []⟩] := by
  simp [animateExplosions, h]

/-- A lone particle starting at `alpha = 1` with `decay = 1/20`
survives exactly 18 animation ticks and is gone from tick 19 onward. -/
theorem particle_life_single (env : Env) (x y : ℚ) (s : GameState)
    (p : Particle) (hs : s.explosions = [⟨x, y, [p]⟩]) (ha : p.alpha = 1)
    (hd : p.decay = 1 / 20) :
    (∃ q : Particle,
      ((animateExplosions env)^[18] s).explosions = [⟨x, y, [q]⟩] ∧
      q.alpha = 1 - 18 * (1 / 20) ∧ q.decay = 1 / 20) ∧
    ∀ n, 19 ≤ n →
      ((animateExplosions env)^[n] s).explosions = [⟨x, y, []⟩] := by
  have aux : ∀ k, k ≤ 18 → ∃ q : Particle,
      ((animateExplosions env)^[k] s).explosions = [⟨x, y, [q]⟩] ∧
      q.alpha = 1 - (k : ℚ) * (1 / 20) ∧ q.decay = 1 / 20 := by
    intro k
    induction k with
    | zero =>
      intro _
      exact ⟨p, by simpa using hs, by simp [ha], hd⟩
    | succ k ih =>
      intro hk
      obtain ⟨q, hsq, haq, hdq⟩ := ih (by omega)
      have hk17 : (k : ℚ) ≤ 17 := by exact_mod_cast (by omega : k ≤ 17)
      have hcond : ¬ q.alpha - q.decay ≤ q.decay := by
        rw [haq, hdq]
        intro hle
        linarith
      obtain ⟨q', hq', ha', hd'⟩ := moveParticle_alive env q hcond
      refine ⟨q', ?_, ?_, by rw [hd', hdq]⟩
      · rw [Function.iterate_succ_apply',
          animate_single env x y q _ hsq, hq']
      · rw [ha', haq, hdq]
        push_cast
        ring
  obtain ⟨q18, hs18, ha18, hd18⟩ := aux 18 le_rfl
  have hdead : moveParticle env q18 = none := by
    apply moveParticle_dead
    rw [ha18, hd18]
    norm_num
  have h19 : ((animateExplosions env)^[19] s).explosions = [⟨x, y, []⟩] := by
    rw [show (19 : ℕ) = 18 + 1 from rfl, Function.iterate_succ_apply',
      animate_single env x y q18 _ hs18, hdead]
  refine ⟨⟨q18, hs18, ha18, hd18⟩, ?_⟩
  intro n hn
  induction n with
  | zero => omega
  | succ m ih =>
    rcases Nat.lt_or_ge 19 (m + 1) with hlt | hge
    · rw [Function.iterate_succ_apply']
      exact animate_empty env x y _ (ih (by omega))
    · have : m + 1 = 19 := by omega
      rw [this]
      exact h19

/-- The concrete fading particle of claim C7: `alpha = 1`,
`decay = 0.05`. -/
def p0 : Particle := ⟨0, 0, [(0, 0), (0, 0)], 0, 1, 50, 1, 1 / 20⟩

def s7 : GameState := { stateC with explosions := [⟨0, 0, [p0]⟩] }

/-- Counterexample to C7 as stated: the particle with `alpha = 1.0` and
`decay = 0.05` is already gone after 19 animation ticks (it is present
after 18), so it is not removed after exactly `⌈1/0.05⌉ = 20` ticks. -/
theorem spec_C7_counterexample :
    (∃ q : Particle,
      ((animateExplosions envC)^[18] s7).explosions = [⟨0, 0, [q]⟩]) ∧
    ((animateExplosions envC)^[19] s7).explosions = [⟨0, 0, []⟩] := by
  have h := particle_life_single envC 0 0 s7 p0 rfl rfl rfl
  exact ⟨⟨h.1.choose, h.1.choose_spec.1⟩, h.2 19 le_rfl⟩

/-- Claim C7 (amended): `moveParticle` removes a particle exactly when
the decremented alpha falls at or below the particle's own decay rate,
i.e. when alpha would go non-positive on the next step; consequently a
particle with `alpha = 1.0` and `decay = 0.05` is removed by the
explosion animator after exactly `⌈1/0.05⌉ - 1 = 19` ticks (present
after 18 ticks, gone from tick 19 onward) and never persists
indefinitely. -/
theorem spec_C7 :
    (∀ (env : Env) (p : Particle),
      moveParticle env p = none ↔ p.alpha - p.decay ≤ p.decay) ∧
    (∀ p : Particle,
      p.alpha - p.decay ≤ p.decay ↔ p.alpha - p.decay - p.decay ≤ 0) ∧
    (∀ (env : Env) (s : GameState) (x y : ℚ) (p : Particle),
      s.explosions = [⟨x, y, [p]⟩] → p.alpha = 1 → p.decay = 1 / 20 →
      (∃ q : Particle,
        ((animateExplosions env)^[18] s).explosions = [⟨x, y, [q]⟩]) ∧
      ∀ n, 19 ≤ n →
        ((animateExplosions env)^[n] s).explosions = [⟨x, y, []⟩]) := by
  refine ⟨?_, ?_, ?_⟩
  · intro env p
    constructor
    · intro h
      by_contra hc
      obtain ⟨q, hq, -, -⟩ := moveParticle_alive env p hc
      rw [h] at hq
      exact Option.noConfusion hq
    · intro h
      exact moveParticle_dead env p h
  · intro p
    constructor <;> intro h <;> linarith
  · intro env s x y p hs ha hd
    have h := particle_life_single env x y s p hs ha hd
    exact ⟨⟨h.1.choose, h.1.choose_spec.1⟩, h.2⟩

/-- Witness for the amended C7 at the concrete particle. -/
theorem spec_C7_witness :
    s7.explosions = [⟨0, 0, [p0]⟩] ∧ p0.alpha = 1 ∧ p0.decay = 1 / 20 ∧
    ((∃ q : Particle,
        ((animateExplosions envC)^[18] s7).explosions = [⟨0, 0, [q]⟩]) ∧
      ∀ n, 19 ≤ n →
        ((animateExplosions envC)^[n] s7).explosions = [⟨0, 0, []⟩]) :=
  ⟨rfl, rfl, rfl, spec_C7.2.2 envC s7 0 0 p0 rfl rfl rfl⟩

theorem moveShip_noThrust (env : Env) (s : GameState)
    (h : s.ship.thrusting = false) :
    (moveShip env s).ship.thrusting = false ∧
    (moveShip env s).ship.xVelocity
      = s.ship.xVelocity * (1 - FRICTION / FPS) ∧
    (moveShip env s).ship.yVelocity
      = s.ship.yVelocity * (1 - FRICTION / FPS) := by
  refine ⟨by simp [moveShip, h], ?_, ?_⟩ <;> simp [moveShip, h] <;> ring

theorem moveShip_iter (env : Env) (s : GameState)
    (h : s.ship.thrusting = false) : ∀ n : ℕ,
    ((moveShip env)^[n] s).ship.thrusting = false ∧
    ((moveShip env)^[n] s).ship.xVelocity
      = s.ship.xVelocity * (1 - FRICTION / FPS) ^ n ∧
    ((moveShip env)^[n] s).ship.yVelocity
      = s.ship.yVelocity * (1 - FRICTION / FPS) ^ n := by
  intro n
  induction n with
  | zero => simp [h]
  | succ n ih =>
    obtain ⟨ht, hx, hy⟩ := ih
    obtain ⟨ht', hx', hy'⟩ := moveShip_noThrust env _ ht
    rw [Function.iterate_succ_apply']
    refine ⟨ht', ?_, ?_⟩
    · rw [hx', hx]; ring
    · rw [hy', hy]; ring

/-- Squared velocity magnitude of the ship after `n` ticks. -/
def shipSpeedSq (env : Env) (s : GameState) (n : ℕ) : ℚ :=
  ((moveShip env)^[n] s).ship.xVelocity ^ 2 +
    ((moveShip env)^[n] s).ship.yVelocity ^ 2

/-- Claim C8: with thrusting off, each `moveShip` multiplies both
velocity components by `1 - FRICTION / FPS`; the squared velocity
magnitude strictly decreases every tick, stays nonzero forever, gets
below any positive bound eventually (asymptotic approach to zero), and
neither component ever reverses sign. -/
theorem spec_C8 (env : Env) (s : GameState)
    (h : s.ship.thrusting = false) :
    ((moveShip env s).ship.xVelocity
        = s.ship.xVelocity * (1 - FRICTION / FPS) ∧
      (moveShip env s).ship.yVelocity
        = s.ship.yVelocity * (1 - FRICTION / FPS)) ∧
    (∀ n : ℕ,
      ((moveShip env)^[n] s).ship.xVelocity
        = s.ship.xVelocity * (1 - FRICTION / FPS) ^ n ∧
      ((moveShip env)^[n] s).ship.yVelocity
        = s.ship.yVelocity * (1 - FRICTION / FPS) ^ n) ∧
    (∀ n : ℕ,
      (0 < s.ship.xVelocity →
        0 < ((moveShip env)^[n] s).ship.xVelocity) ∧
      (s.ship.xVelocity < 0 →
        ((moveShip env)^[n] s).ship.xVelocity < 0) ∧
      (0 < s.ship.yVelocity →
        0 < ((moveShip env)^[n] s).ship.yVelocity) ∧
      (s.ship.yVelocity < 0 →
        ((moveShip env)^[n] s).ship.yVelocity < 0)) ∧
    (¬(s.ship.xVelocity = 0 ∧ s.ship.yVelocity = 0) →
      (∀ n : ℕ, shipSpeedSq env s (n + 1) < shipSpeedSq env s n) ∧
      (∀ n : ℕ, 0 < shipSpeedSq env s n) ∧
      (∀ ε : ℚ, 0 < ε → ∃ n : ℕ, shipSpeedSq env s n < ε)) := by
  have hq0 : (0 : ℚ) < 1 - FRICTION / FPS := by norm_num [FRICTION, FPS]
  have hq1 : (1 : ℚ) - FRICTION / FPS < 1 := by norm_num [FRICTION, FPS]
  have hiter := moveShip_iter env s h
  refine ⟨?_, fun n => ⟨(hiter n).2.1, (hiter n).2.2⟩, ?_, ?_⟩
  · have h1 := moveShip_noThrust env s h
    exact ⟨h1.2.1, h1.2.2⟩
  · intro n
    have hpow : 0 < (1 - FRICTION / FPS) ^ n := pow_pos hq0 n
    refine ⟨?_, ?_, ?_, ?_⟩ <;> intro hv
    · rw [(hiter n).2.1]; exact mul_pos hv hpow
    · rw [(hiter n).2.1]; exact mul_neg_of_neg_of_pos hv hpow
    · rw [(hiter n).2.2]; exact mul_pos hv hpow
    · rw [(hiter n).2.2]; exact mul_neg_of_neg_of_pos hv hpow
  · intro hnz
    set vx := s.ship.xVelocity with hvx
    set vy := s.ship.yVelocity with hvy
    set q : ℚ := 1 - FRICTION / FPS with hqdef
    have hC : 0 < vx ^ 2 + vy ^ 2 := by
      rcases not_and_or.1 hnz with hx | hy
      · rcases lt_or_gt_of_ne hx with hlt | hlt <;>
          nlinarith [sq_nonneg vx, sq_nonneg vy]
      · rcases lt_or_gt_of_ne hy with hlt | hlt <;>
          nlinarith [sq_nonneg vx, sq_nonneg vy]
    have hr0 : (0 : ℚ) < q ^ 2 := pow_pos hq0 2
    have hr1 : q ^ 2 < 1 := by nlinarith
    have key : ∀ (a : ℚ) (n : ℕ), (a * q ^ n) ^ 2 = a ^ 2 * (q ^ 2) ^ n := by
      intro a n
      rw [mul_pow, ← pow_mul, ← pow_mul, Nat.mul_comm]
    have hmag : ∀ n, shipSpeedSq env s n
        = (vx ^ 2 + vy ^ 2) * (q ^ 2) ^ n := by
      intro n
      unfold shipSpeedSq
      rw [(hiter n).2.1, (hiter n).2.2, key, key]
      ring
    refine ⟨?_, ?_, ?_⟩
    · intro n
      rw [hmag n, hmag (n + 1)]
      have hrn : 0 < (q ^ 2) ^ n := pow_pos hr0 n
      calc (vx ^ 2 + vy ^ 2) * (q ^ 2) ^ (n + 1)
          = ((vx ^ 2 + vy ^ 2) * (q ^ 2) ^ n) * (q ^ 2) := by ring
        _ < ((vx ^ 2 + vy ^ 2) * (q ^ 2) ^ n) * 1 :=
            mul_lt_mul_of_pos_left hr1 (mul_pos hC hrn)
        _ = (vx ^ 2 + vy ^ 2) * (q ^ 2) ^ n := by ring
    · intro n
      rw [hmag n]
      exact mul_pos hC (pow_pos hr0 n)
    · intro ε hε
      obtain ⟨n, hn⟩ :=
        exists_pow_lt_of_lt_one (div_pos hε hC) hr1
      refine ⟨n, ?_⟩
      rw [hmag n]
      have := (lt_div_iff₀ hC).1 hn
      linarith

def stateC8 : GameState :=
  { stateC with ship := { shipC with xVelocity := 6 } }

/-- Witness for C8: a drifting ship with `xVelocity = 6`, thrust off. -/
theorem spec_C8_witness :
    stateC8.ship.thrusting = false ∧
    ¬(stateC8.ship.xVelocity = 0 ∧ stateC8.ship.yVelocity = 0) ∧
    (moveShip envC stateC8).ship.xVelocity
      = stateC8.ship.xVelocity * (1 - FRICTION / FPS) ∧
    (∀ n : ℕ, 0 < shipSpeedSq envC stateC8 n) ∧
    ∃ n : ℕ, shipSpeedSq envC stateC8 n < 1 := by
  have h := spec_C8 envC stateC8 rfl
  have hnz : ¬(stateC8.ship.xVelocity = 0 ∧ stateC8.ship.yVelocity = 0) := by
    norm_num [stateC8, stateC, shipC]
  exact ⟨rfl, hnz, h.1.1, (h.2.2.2 hnz).2.1, (h.2.2.2 hnz).2.2 1 one_pos⟩

theorem checkShipCollision_lives_score (env : Env) (rps : ℕ → RandParticle)
    (r1 r2 : RandAst) (s : GameState) :
    (checkShipCollision env rps r1 r2 s).lives ≤ s.lives ∧
    (checkShipCollision env rps r1 r2 s).score = s.score := by
  rcases hf : s.asteroids.find? (fun asteroid =>
      circleCollision s.ship.entity asteroid.entity) with _ | hit
  · simp [checkShipCollision, hf]
  · by_cases hl : s.lives > 1
    · refine ⟨?_, ?_⟩ <;> simp [checkShipCollision, hf, hl]
    · refine ⟨?_, ?_⟩ <;> simp [checkShipCollision, hf, hl]

theorem checkLaserCollision_lives_score (env : Env) (rps : ℕ → RandParticle)
    (r1 r2 : RandAst) (s : GameState) :
    (checkLaserCollision env rps r1 r2 s).lives = s.lives ∧
    s.score ≤ (checkLaserCollision env rps r1 r2 s).score := by
  rcases hfl : s.ship.lasers.find? (fun laser =>
      (s.asteroids.find? (fun asteroid =>
        circleCollision laser.entity asteroid.entity)).isSome) with _ | hl
  · simp [checkLaserCollision, hfl]
  · rcases hfa : s.asteroids.find? (fun asteroid =>
        circleCollision hl.entity asteroid.entity) with _ | hit
    · simp [checkLaserCollision, hfl, hfa]
    · refine ⟨?_, ?_⟩ <;> simp [checkLaserCollision, hfl, hfa]

theorem checkLevelCompleted_lives_score (env : Env) (slots : ℕ → SlotRand)
    (s s' : GameState) (h : checkLevelCompleted env slots s = some s') :
    s'.lives = s.lives ∧ s'.score = s.score := by
  unfold checkLevelCompleted at h
  by_cases hl : s.asteroids.length ≠ 0
  · rw [if_pos hl] at h
    obtain rfl := Option.some.inj h
    exact ⟨rfl, rfl⟩
  · rw [if_neg hl] at h
    obtain ⟨belt, -, rfl⟩ := Option.map_eq_some'.1 h
    exact ⟨rfl, rfl⟩

theorem gameLoop_lives_score (env : Env) (r : TickRand) (s s' : GameState)
    (h : gameLoop env r s = some s') :
    s'.lives ≤ s.lives ∧ s.score ≤ s'.score := by
  unfold gameLoop at h
  by_cases hgo : isGameOver s
  · rw [if_pos hgo] at h
    obtain rfl := Option.some.inj h
    exact ⟨le_refl _, le_refl _⟩
  · rw [if_neg hgo] at h
    by_cases hsp : isSpawning s
    · rw [if_pos hsp] at h
      obtain rfl := Option.some.inj h
      exact ⟨le_refl _, le_refl _⟩
    · rw [if_neg hsp] at h
      obtain ⟨t, ht, rfl⟩ := Option.map_eq_some'.1 h
      have h4 := checkShipCollision_lives_score env r.shipExpl r.shipFragA
        r.shipFragB (moveAsteroids (moveLasers (moveShip env s)))
      have h5 := checkLaserCollision_lives_score env r.laserExpl r.laserFragA
        r.laserFragB (checkShipCollision env r.shipExpl r.shipFragA
          r.shipFragB (moveAsteroids (moveLasers (moveShip env s))))
      have h6 := checkLevelCompleted_lives_score env r.slots _ t ht
      have e0 : (moveAsteroids (moveLasers (moveShip env s))).lives
          = s.lives := rfl
      have e0' : (moveAsteroids (moveLasers (moveShip env s))).score
          = s.score := rfl
      have e1 : (animateExplosions env t).lives = t.lives := rfl
      have e1' : (animateExplosions env t).score = t.score := rfl
      constructor
      · rw [e1, h6.1, h5.1]
        omega
      · rw [e1', h6.2]
        omega

/-- Claim C10: over the closed action set, the reducer never increases
`lives` and never decreases `score`: lives only ever drop (ship
collision) and score only ever grows (laser collision). -/
theorem spec_C10 (env : Env) (r : TickRand) (s : GameState)
    (a : GameActions) (s' : GameState) (h : reducer env r s a = some s') :
    s'.lives ≤ s.lives ∧ s.score ≤ s'.score := by
  cases a
  case gameLoop => exact gameLoop_lives_score env r s s' h
  all_goals
    obtain rfl := Option.some.inj h
    exact ⟨le_refl _, le_refl _⟩

/-- Witness for C10 at a concrete state and action. -/
theorem spec_C10_witness :
    ∃ s', reducer envC tickC stateC GameActions.thrustOn = some s' ∧
      s'.lives ≤ stateC.lives ∧ stateC.score ≤ s'.score := by
  have h := spec_C10 envC tickC stateC GameActions.thrustOn
    (thrustOn stateC) rfl
  exact ⟨thrustOn stateC, rfl, h.1, h.2⟩
